import Mathlib

/-!
Verification of the webdriver interaction recorder
(`webdriver_recorder.py`, `metaprog_utils.py`).

The embedding models Python values directly: the recorder's
`_current_page` dict is either `{}` (falsy) or a page record (truthy);
numbers are rationals (Python `/` is exact on the halves produced here);
a raised exception is modelled as the pair of the object state at raise
time and an error message, since a Python exception leaves the mutated
object behind.
-/

namespace WebdriverRecorder

/-- Element position dict `{'x': …, 'y': …}`; also the shape of a recorded
event location. -/
structure Location where
  x : ℚ
  y : ℚ
  deriving DecidableEq

/-- Element size dict `{'width': …, 'height': …}`. -/
structure Size where
  width : ℚ
  height : ℚ
  deriving DecidableEq

/-- The observable state of a selenium web element used by the recorder:
its `location` and `size` properties. -/
structure PyElement where
  location : Location
  size : Size
  deriving DecidableEq

/-- A recorded event dict as it sits in `recorded_events`: the
`event_type` tag, the `text` for send_keys, and the `location` that
`_add_event` attaches. -/
inductive Event
  | click (location : Location)
  | send_keys (text : String) (location : Location)
  deriving DecidableEq

/-- The event dict as built by `on_click` / `on_send_keys` before
`_add_event` attaches the location. -/
inductive EventTag
  | click
  | send_keys (text : String)
  deriving DecidableEq

/-- Attaching the `location` key to an event dict (`event['location'] = …`). -/
def EventTag.withLocation : EventTag → Location → Event
  | .click, l => .click l
  | .send_keys t, l => .send_keys t l

/-- The recorder's `_current_page` dict: either the empty dict `{}` set by
`start`, or `{'url': …, 'recorded_events': …}` set by `on_navigate_to_url`. -/
inductive CurrentPage
  | empty
  | page (url : String) (recorded_events : List Event)
  deriving DecidableEq

/-- Python truthiness of the `_current_page` dict: `{}` is falsy, a dict
with keys is truthy (so a page with zero recorded events is still truthy). -/
def CurrentPage.truthy : CurrentPage → Bool
  | .empty => false
  | .page _ _ => true

/-- The `Recorder` object state: `_pages` (the finalized trace, a list of
page dicts) and `_current_page`. -/
structure Recorder where
  pages : List CurrentPage
  current_page : CurrentPage
  deriving DecidableEq

/-- `Recorder.start`: `self._pages = []; self._current_page = {}` (the
returned driver proxy is modelled separately). -/
def Recorder.start : Recorder :=
  { pages := [], current_page := .empty }

/-- `Recorder.close`: `self._pages.append(self._current_page)`,
unconditionally. -/
def Recorder.close (r : Recorder) : Recorder :=
  { r with pages := r.pages ++ [r.current_page] }

/-- `Recorder.on_navigate_to_url`: append `_current_page` to `_pages` if it
is truthy, then open a fresh page dict for `url`. -/
def Recorder.on_navigate_to_url (r : Recorder) (url : String) : Recorder :=
  { pages := if r.current_page.truthy then r.pages ++ [r.current_page] else r.pages,
    current_page := .page url [] }

/-- `Recorder._get_event_location`: center of the element's bounding box,
`{'x': location.x + size.width / 2, 'y': location.y + size.height / 2}`. -/
def Recorder._get_event_location (element : PyElement) : Location :=
  { x := element.location.x + element.size.width / 2,
    y := element.location.y + element.size.height / 2 }

/-- `Recorder._add_event`: compute the location, attach it to the event
dict, and append to `self._current_page['recorded_events']`. When
`_current_page` is `{}` the subscript raises KeyError; the returned pair is
the object state at raise time (unchanged: `_pages` is never touched here)
together with the error. -/
def Recorder._add_event (r : Recorder) (element : PyElement) (event : EventTag) :
    Recorder × Option String :=
  let loc := Recorder._get_event_location element
  match r.current_page with
  | .empty => (r, some "KeyError: recorded_events")
  | .page url evs =>
      ({ r with current_page := .page url (evs ++ [event.withLocation loc]) }, none)

/-- `Recorder.on_click`: `_add_event(element, {'event_type': 'click'})`. -/
def Recorder.on_click (r : Recorder) (element : PyElement) : Recorder × Option String :=
  r._add_event element .click

/-- `Recorder.on_send_keys`: `_add_event(element, {'event_type': 'send_keys', 'text': text})`. -/
def Recorder.on_send_keys (r : Recorder) (element : PyElement) (text : String) :
    Recorder × Option String :=
  r._add_event element (.send_keys text)

/-- Rendering of a Python number in `json.dumps` output. Locations are
floats (`/ 2`), exact on the integers and half-integers that the location
arithmetic produces; other denominators never arise from it. -/
def dumpRat (q : ℚ) : String :=
  if q.den = 1 then toString q.num ++ ".0"
  else if q.den = 2 then
    (if q.num < 0 then "-" else "") ++ toString (q.num.natAbs / 2) ++ ".5"
  else toString q.num ++ "/" ++ toString q.den

/-- Rendering of a JSON string (escaping of special characters is not
modelled; no claim depends on it). -/
def dumpString (s : String) : String :=
  "\"" ++ s ++ "\""

/-- Rendering of a location dict, keys in insertion order. -/
def dumpLocation (l : Location) : String :=
  "\x7b\"x\": " ++ dumpRat l.x ++ ", \"y\": " ++ dumpRat l.y ++ "\x7d"

/-- Rendering of a JSON array with the `json.dumps` default separator. -/
def dumpSeq (items : List String) : String :=
  "[" ++ String.intercalate ", " items ++ "]"

/-- Rendering of one event dict, keys in insertion order (`event_type`,
then `text` for send_keys, then the `location` attached by `_add_event`). -/
def dumpEvent : Event → String
  | .click l =>
      "\x7b\"event_type\": \"click\", \"location\": " ++ dumpLocation l ++ "\x7d"
  | .send_keys t l =>
      "\x7b\"event_type\": \"send_keys\", \"text\": " ++ dumpString t ++
        ", \"location\": " ++ dumpLocation l ++ "\x7d"

/-- Rendering of one page dict: `{}` or `{'url': …, 'recorded_events': […]}`. -/
def dumpPage : CurrentPage → String
  | .empty => "\x7b\x7d"
  | .page url evs =>
      "\x7b\"url\": " ++ dumpString url ++ ", \"recorded_events\": " ++
        dumpSeq (evs.map dumpEvent) ++ "\x7d"

/-- The model of `json.dumps(self._pages)`. -/
def json_dumps_pages (pages : List CurrentPage) : String :=
  dumpSeq (pages.map dumpPage)

/-- `Recorder.export`: `json.dumps(self._pages)` (named with a prime since
`export` is a Lean keyword). -/
def Recorder.export' (r : Recorder) : String :=
  json_dumps_pages r.pages

/-- The driver- and element-side state that a proxied `click` or
`send_keys` interacts with: the wrapped element's geometry and the
driver's `current_url`. -/
structure World where
  element : PyElement
  current_url : String
  deriving DecidableEq

/-- `RecordingWebElement.click`: notify the recorder of the click (which
reads the element's pre-click geometry), then perform the real
`element.click()` — modelled as an arbitrary effect `realClick` on the
world, since the click may move elements or navigate — then notify the
recorder of navigation with the driver's then-current url. If `on_click`
raises, the exception propagates and neither the real click nor the
navigation notification happens. -/
def RecordingWebElement.click (realClick : World → World)
    (recorder : Recorder) (w : World) : (Recorder × World) × Option String :=
  match recorder.on_click w.element with
  | (r1, some err) => ((r1, w), some err)
  | (r1, none) =>
      let w1 := realClick w
      ((r1.on_navigate_to_url w1.current_url, w1), none)

/-- An argument to `send_keys`: a string, an `int`, or a non-int numeric
value (a Python float, carried as the rational it denotes). Only `int`
passes the `isinstance(val, int)` test and is stringified. -/
inductive SendKeysValue
  | str (s : String)
  | int (n : ℤ)
  | float (q : ℚ)
  deriving DecidableEq

/-- One iteration of the normalization loop, up to the value appended to
`text`: an `int` is stringified via `__str__` and round-trips through
`encode('utf-8').decode('utf-8')`; a string round-trips unchanged; a
float fails the `isinstance(val, int)` test and has no `encode` method,
so the iteration raises AttributeError (`none`). -/
def SendKeysValue.toText? : SendKeysValue → Option String
  | .str s => some s
  | .int n => some (toString n)
  | .float _ => none

/-- The `send_keys` accumulation loop: `text` starts empty and each value
is normalized and appended (`text += …`) in order; the first value whose
iteration raises aborts the loop. -/
def sendKeysLoop : String → List SendKeysValue → Option String
  | text, [] => some text
  | text, val :: rest =>
      match val.toText? with
      | some t => sendKeysLoop (text ++ t) rest
      | none => none

/-- The `text` that the `send_keys` loop builds, or `none` when the loop
raises AttributeError on a non-int numeric argument. -/
def sendKeysText (values : List SendKeysValue) : Option String :=
  sendKeysLoop "" values

/-- Concatenation of the per-value texts, in order. -/
def concatTexts : List String → String
  | [] => ""
  | t :: ts => t ++ concatTexts ts

/-- Normalization of a whole argument list: the per-value texts, or `none`
as soon as one value is a non-int numeric. -/
def toTexts? : List SendKeysValue → Option (List String)
  | [] => some []
  | v :: vs =>
      match v.toText?, toTexts? vs with
      | some t, some ts => some (t :: ts)
      | _, _ => none

/-- `RecordingWebElement.send_keys`: run the normalization loop; if it
raises, the exception propagates with nothing recorded and the real
send-keys never runs. Otherwise notify the recorder (recording the event
with the computed location), then perform the real
`element.send_keys(*value)` with the original arguments — modelled as an
arbitrary effect `realSendKeys` taking those arguments. If `on_send_keys`
raises, that exception propagates and the real send-keys never runs. -/
def RecordingWebElement.send_keys (realSendKeys : List SendKeysValue → World → World)
    (recorder : Recorder) (w : World) (value : List SendKeysValue) :
    (Recorder × World) × Option String :=
  match sendKeysText value with
  | none => ((recorder, w), some "AttributeError: float object has no attribute encode")
  | some text =>
      match recorder.on_send_keys w.element text with
      | (r1, some err) => ((r1, w), some err)
      | (r1, none) => ((r1, realSendKeys value w), none)

/-- A selenium locator strategy (`By`). -/
inductive By
  | id | xpath | link_text | partial_link_text | name | tag_name | class_name | css_selector
  deriving DecidableEq

/-- A wrapped element as returned by the proxies: holds the raw underlying
element handle in its `element` field. -/
structure RecordingWebElement (α : Type) where
  element : α
  deriving DecidableEq

/-- A value flowing out of a lookup: either a raw underlying element (what
the real driver hands back) or a proxy-wrapped one. The wrapping-closure
property says only wrapped ones ever escape. -/
inductive LookupResult (α : Type)
  | raw (e : α)
  | wrapped (e : RecordingWebElement α)
  deriving DecidableEq

/-- `RecordingWebElement.find_element`: run the element's original (saved)
`find_element`; if the result is truthy (an element; `None` is falsy),
wrap it; otherwise return the no-result unchanged. -/
def RecordingWebElement.find_element {α : Type}
    (original_find_element : By → Option String → Option α)
    (by_ : By) (value : Option String) : Option (LookupResult α) :=
  match original_find_element by_ value with
  | some e => some (.wrapped ⟨e⟩)
  | none => none

/-- `RecordingWebElement.find_elements`: run the element's original (saved)
`find_elements`; if the list is truthy (non-empty), wrap every element;
otherwise return the falsy result unchanged. -/
def RecordingWebElement.find_elements {α : Type}
    (original_find_elements : By → Option String → List α)
    (by_ : By) (value : Option String) : List (LookupResult α) :=
  match original_find_elements by_ value with
  | [] => []
  | e :: es => (e :: es).map (fun x => .wrapped ⟨x⟩)

/-- `RecordingWebDriver.find_element`: run the real driver's
`find_element`; wrap a truthy result, return a falsy one unchanged. -/
def RecordingWebDriver.find_element {α : Type}
    (driver_find_element : By → Option String → Option α)
    (by_ : By) (value : Option String) : Option (LookupResult α) :=
  match driver_find_element by_ value with
  | some e => some (.wrapped ⟨e⟩)
  | none => none

/-- `RecordingWebDriver.find_elements`: run the real driver's
`find_elements`; wrap every element of a truthy (non-empty) result, return
a falsy one unchanged. -/
def RecordingWebDriver.find_elements {α : Type}
    (driver_find_elements : By → Option String → List α)
    (by_ : By) (value : Option String) : List (LookupResult α) :=
  match driver_find_elements by_ value with
  | [] => []
  | e :: es => (e :: es).map (fun x => .wrapped ⟨x⟩)

end WebdriverRecorder

namespace MetaprogUtils

/-- A Python attribute value, over a value type `ρ` for call arguments and
results: a real callable (method), plain non-callable data, or a
forwarding method made by `create_forwarded_method`, which at call time
looks `func_name` up on the (fixed) target and calls it. -/
inductive PyAttr (ρ : Type)
  | method (f : List ρ → ρ)
  | data (v : ρ)
  | forwarded (func_name : String)

/-- Whether `callable(...)` holds of an attribute: methods are callable,
plain data is not. -/
def PyAttr.callable {ρ : Type} : PyAttr ρ → Bool
  | .method _ => true
  | .data _ => false
  | .forwarded _ => true

/-- A Python object for attribute purposes: its bindings, newest first, as
name-attribute pairs (`dir` of the raw targets used here has distinct
names). -/
abbrev PyObj (ρ : Type) : Type := List (String × PyAttr ρ)

/-- Model of `getattr(o, name)`, or `None` when the attribute is missing. -/
def getattr? {ρ : Type} (o : PyObj ρ) (name : String) : Option (PyAttr ρ) :=
  (o.find? (fun p => p.1 == name)).map Prod.snd

/-- Model of `hasattr(o, name)`. -/
def hasattr {ρ : Type} (o : PyObj ρ) (name : String) : Bool :=
  (getattr? o name).isSome

/-- Model of `setattr(o, name, v)`: the new binding shadows any older one. -/
def setattr {ρ : Type} (o : PyObj ρ) (name : String) (v : PyAttr ρ) : PyObj ρ :=
  (name, v) :: o

/-- `create_forwarded_method(from_, to, func_name)`: the returned bound
method closes over the target, so it is represented by the name it
forwards; its call behavior is given by `invokeAttr` relative to `to`. -/
def create_forwarded_method {ρ : Type} (func_name : String) : PyAttr ρ :=
  .forwarded func_name

/-- Calling an attribute obtained from an object built against target
`to`: a method runs on its arguments; a forwarded method performs
`getattr(to, func_name)(*args)`; calling non-callable data is a TypeError
(`none`). -/
def invokeAttr {ρ : Type} (to_ : PyObj ρ) (a : PyAttr ρ) (args : List ρ) : Option ρ :=
  match a with
  | .method f => some (f args)
  | .data _ => none
  | .forwarded n =>
      match getattr? to_ n with
      | some (.method f) => some (f args)
      | _ => none

/-- Whether `create_proxy_interface` considers a name public:
`not attr_name.startswith('_')`. Starting with the one-character prefix
`'_'` holds exactly when the name's first character is an underscore. -/
def isPublic (name : String) : Bool :=
  !(name.data.head? == some (Char.ofNat 95))

/-- One iteration of the `create_proxy_interface` loop over `dir(to)`, for
the entry `e`: a public, non-ignored name whose attribute on `to` is
callable gets a forwarded method set on the accumulator, unless it already
has the attribute and `override_existing` is false. -/
def cpiStep {ρ : Type} (to_ : PyObj ρ) (ignore_list : List String)
    (override_existing : Bool) (acc : PyObj ρ) (e : String × PyAttr ρ) : PyObj ρ :=
  if isPublic e.1 && !(ignore_list.contains e.1) then
    if ((getattr? to_ e.1).map PyAttr.callable).getD false then
      if override_existing || !(hasattr acc e.1) then
        setattr acc e.1 (create_forwarded_method e.1)
      else acc
    else acc
  else acc

/-- `create_proxy_interface(from_, to, ignore_list, override_existing)`:
fold the loop body over `dir(to)` starting from `from_`. -/
def create_proxy_interface {ρ : Type} (from_ to_ : PyObj ρ)
    (ignore_list : List String) (override_existing : Bool) : PyObj ρ :=
  to_.foldl (cpiStep to_ ignore_list override_existing) from_

theorem getattr_setattr_self {ρ : Type} (o : PyObj ρ) (n : String) (v : PyAttr ρ) :
    getattr? (setattr o n v) n = some v := by
  simp [getattr?, setattr, List.find?]

theorem getattr_setattr_other {ρ : Type} (o : PyObj ρ) (n m : String) (v : PyAttr ρ)
    (h : n ≠ m) : getattr? (setattr o n v) m = getattr? o m := by
  simp [getattr?, setattr, List.find?_cons, h]

theorem getattr_cpiStep_other {ρ : Type} (to_ : PyObj ρ) (ig : List String) (ov : Bool)
    (acc : PyObj ρ) (e : String × PyAttr ρ) (name : String) (h : e.1 ≠ name) :
    getattr? (cpiStep to_ ig ov acc e) name = getattr? acc name := by
  unfold cpiStep
  repeat' split
  all_goals first
    | rfl
    | exact getattr_setattr_other acc e.1 name _ h

/-- Names not among the remaining entries are untouched by the rest of the
fold. -/
theorem getattr_foldl_not_mem {ρ : Type} (to_ : PyObj ρ) (ig : List String) (ov : Bool)
    (l : List (String × PyAttr ρ)) (acc : PyObj ρ) (name : String)
    (h : ∀ e ∈ l, e.1 ≠ name) :
    getattr? (l.foldl (cpiStep to_ ig ov) acc) name = getattr? acc name := by
  induction l generalizing acc with
  | nil => rfl
  | cons e rest ih =>
      rw [List.foldl_cons, ih _ (fun x hx => h x (List.mem_cons_of_mem e hx)),
        getattr_cpiStep_other to_ ig ov acc e name (h e (List.mem_cons_self e rest))]

/-- Characterization of the fold at a name that occurs exactly once in the
iterated entries. -/
theorem getattr_foldl_mem {ρ : Type} (to_ : PyObj ρ) (ig : List String) (ov : Bool)
    (l : List (String × PyAttr ρ)) (acc : PyObj ρ) (name : String) (a : PyAttr ρ)
    (hnd : (l.map Prod.fst).Nodup) (hmem : (name, a) ∈ l) :
    getattr? (l.foldl (cpiStep to_ ig ov) acc) name =
      if isPublic name && !(ig.contains name) &&
          ((getattr? to_ name).map PyAttr.callable).getD false &&
          (ov || !(hasattr acc name)) then
        some (create_forwarded_method name)
      else getattr? acc name := by
  induction l generalizing acc with
  | nil => cases hmem
  | cons e rest ih =>
      rw [List.map_cons, List.nodup_cons] at hnd
      rcases List.mem_cons.mp hmem with heq | hrest
      · subst heq
        have hrest_ne : ∀ x ∈ rest, x.1 ≠ name := by
          intro x hx hx1
          have hm : x.1 ∈ rest.map Prod.fst := List.mem_map_of_mem Prod.fst hx
          rw [hx1] at hm
          exact hnd.1 hm
        rw [List.foldl_cons, getattr_foldl_not_mem to_ ig ov rest _ name hrest_ne]
        unfold cpiStep
        simp only
        split
        · split
          · split
            · next h1 h2 h3 =>
                rw [getattr_setattr_self]
                rw [if_pos]
                simp_all
            · next h1 h2 h3 =>
                rw [if_neg]
                simp_all
          · next h1 h2 =>
              rw [if_neg]
              simp_all
        · next h1 =>
            rw [if_neg]
            simp_all
      · have hne : e.1 ≠ name := by
          intro h1
          have hm : (name, a).1 ∈ rest.map Prod.fst := List.mem_map_of_mem Prod.fst hrest
          rw [← h1] at hm
          exact hnd.1 hm
        rw [List.foldl_cons, ih _ hnd.2 hrest,
          getattr_cpiStep_other to_ ig ov acc e name hne]
        have : hasattr (cpiStep to_ ig ov acc e) name = hasattr acc name := by
          unfold hasattr
          rw [getattr_cpiStep_other to_ ig ov acc e name hne]
        rw [this]

/-- A first `find?` hit on a list with distinct keys is list membership. -/
theorem getattr_eq_some_mem {ρ : Type} (o : PyObj ρ) (name : String) (a : PyAttr ρ)
    (h : getattr? o name = some a) : (name, a) ∈ o := by
  unfold getattr? at h
  rcases Option.map_eq_some'.mp h with ⟨p, hp, hsnd⟩
  have hkey := List.find?_some hp
  have hmem := List.mem_of_find?_eq_some hp
  have : p = (name, a) := by
    rcases p with ⟨k, v⟩
    simp only [beq_iff_eq] at hkey
    cases hkey
    cases hsnd
    rfl
  exact this ▸ hmem

/-- A demonstration callable bound on the raw target object. -/
def demoQuit : List Nat → Nat := fun _ => 0

/-- A demonstration raw target object: one public callable, one private
callable, one public non-callable attribute. -/
def demoTarget : PyObj Nat :=
  [("quit", .method demoQuit), ("_private", .method (fun _ => 1)), ("title", .data 5)]

/-- A demonstration source object with one binding of its own. -/
def demoSource : PyObj Nat :=
  [("get", .method (fun _ => 9))]

end MetaprogUtils

namespace WebdriverRecorder

/-- C1: from a fresh Recorder, `on_navigate_to_url u1` then
`on_navigate_to_url u2` with no events in between, then `close()`, yields a
trace whose pages are exactly a page for `u1` with zero recorded events
immediately followed by a page for `u2`. -/
theorem navigation_coalescing_trace (u1 u2 : String) :
    (((Recorder.start.on_navigate_to_url u1).on_navigate_to_url u2).close).pages =
      [CurrentPage.page u1 [], CurrentPage.page u2 []] := rfl

/-- C2 counterexample: with the open page `u1` holding an empty event
sequence, a second navigation notification does append an additional
finalized page (the superseded empty page) to the trace — it does not
coalesce as the claim states. -/
theorem navigation_appends_empty_page_cex :
    ((Recorder.start.on_navigate_to_url "u1").on_navigate_to_url "u2").pages ≠
      (Recorder.start.on_navigate_to_url "u1").pages := by
  decide

/-- C2 amended: whenever a page is open — even with an empty event
sequence — `on_navigate_to_url` finalizes it, appending it to the trace as
an additional page, and opens a fresh page for the new url; only in the
no-page-open state does navigation append nothing. -/
theorem navigation_finalizes_open_page (r : Recorder) (u url : String)
    (evs : List Event) (h : r.current_page = .page url evs) :
    (r.on_navigate_to_url u).pages = r.pages ++ [CurrentPage.page url evs] ∧
    (r.on_navigate_to_url u).current_page = .page u [] := by
  constructor <;> simp [Recorder.on_navigate_to_url, h, CurrentPage.truthy]

/-- C2 amended, witness at a concrete reachable state. -/
theorem navigation_finalizes_open_page_witness :
    ((Recorder.start.on_navigate_to_url "u1").on_navigate_to_url "u2").pages =
        Recorder.start.pages ++ [CurrentPage.page "u1" []] ∧
    ((Recorder.start.on_navigate_to_url "u1").on_navigate_to_url "u2").current_page =
        .page "u2" [] :=
  navigation_finalizes_open_page (Recorder.start.on_navigate_to_url "u1") "u2" "u1" [] rfl

/-- C6: the recorded event location for an element at position `(x, y)`
with size `(w, h)` is exactly `(x + w / 2, y + h / 2)`; in particular for
position `(10, 20)` and size `(100, 40)` it is exactly `(60, 40)`. -/
theorem event_location_center (x y w h : ℚ) :
    Recorder._get_event_location ⟨⟨x, y⟩, ⟨w, h⟩⟩ = ⟨x + w / 2, y + h / 2⟩ ∧
    Recorder._get_event_location ⟨⟨10, 20⟩, ⟨100, 40⟩⟩ = ⟨60, 40⟩ := by
  refine ⟨rfl, ?_⟩
  simp only [Recorder._get_event_location]
  norm_num

/-- C10: `close()` immediately after `start` (no page ever opened) is not a
no-op: it appends the empty current-page dict to the trace, so `export()`
yields a one-entry trace holding the empty record, different from the empty
trace exported before `close()`. -/
theorem close_without_page_appends_empty :
    Recorder.start.close.pages = [CurrentPage.empty] ∧
    Recorder.start.close.export' = "[\x7b\x7d]" ∧
    Recorder.start.close.export' ≠ Recorder.start.export' := by
  refine ⟨rfl, rfl, ?_⟩
  decide

/-- C3: with a page open, a proxied `click` (for an arbitrary real-click
effect on the world) records a Click event whose location is computed from
the element geometry read before the real click, then performs the real
click, then notifies navigation with the post-click current url — all
visible in the resulting state: the finalized trace gains the old open page
extended with the pre-click-located Click event, the world is the
real-click result, and a fresh page is open at the post-click url. -/
theorem click_records_then_clicks_then_navigates
    (realClick : World → World) (r : Recorder) (w : World)
    (url : String) (evs : List Event) (h : r.current_page = .page url evs) :
    RecordingWebElement.click realClick r w =
      (({ pages := r.pages ++
            [CurrentPage.page url (evs ++ [Event.click (Recorder._get_event_location w.element)])],
          current_page := .page (realClick w).current_url [] },
        realClick w), none) := by
  simp [RecordingWebElement.click, Recorder.on_click, Recorder._add_event, h,
    EventTag.withLocation, Recorder.on_navigate_to_url, CurrentPage.truthy]

/-- C3 witness: a concrete click whose real effect moves the element and
changes the url; the recorded location still reflects the pre-click
geometry (center of position (10, 20), size (100, 40)). -/
theorem click_records_then_clicks_then_navigates_witness :
    RecordingWebElement.click
        (fun _ => ⟨⟨⟨0, 0⟩, ⟨2, 2⟩⟩, "u2"⟩)
        (Recorder.start.on_navigate_to_url "u1")
        ⟨⟨⟨10, 20⟩, ⟨100, 40⟩⟩, "u1"⟩ =
      (({ pages := (Recorder.start.on_navigate_to_url "u1").pages ++
            [CurrentPage.page "u1"
              ([] ++ [Event.click (Recorder._get_event_location ⟨⟨10, 20⟩, ⟨100, 40⟩⟩)])],
          current_page := .page "u2" [] },
        ⟨⟨⟨0, 0⟩, ⟨2, 2⟩⟩, "u2"⟩), none) :=
  click_records_then_clicks_then_navigates
    (fun _ => ⟨⟨⟨0, 0⟩, ⟨2, 2⟩⟩, "u2"⟩)
    (Recorder.start.on_navigate_to_url "u1")
    ⟨⟨⟨10, 20⟩, ⟨100, 40⟩⟩, "u1"⟩ "u1" [] rfl

theorem sendKeysLoop_toTexts (values : List SendKeysValue) (texts : List String)
    (h : toTexts? values = some texts) (text : String) :
    sendKeysLoop text values = some (text ++ concatTexts texts) := by
  induction values generalizing texts text with
  | nil =>
      simp only [toTexts?, Option.some_inj] at h
      subst h
      simp [sendKeysLoop, concatTexts, String.append_empty]
  | cons v vs ih =>
      cases hv : v.toText? with
      | none => simp [toTexts?, hv] at h
      | some t =>
          cases hts : toTexts? vs with
          | none => simp [toTexts?, hv, hts] at h
          | some ts =>
              have htx : texts = t :: ts := by
                simp only [toTexts?, hv, hts, Option.some_inj] at h
                exact h.symm
              subst htx
              unfold sendKeysLoop
              rw [hv]
              show sendKeysLoop (text ++ t) vs = some (text ++ concatTexts (t :: ts))
              rw [ih ts hts (text ++ t)]
              simp [concatTexts, String.append_assoc]

theorem sendKeysLoop_float (values : List SendKeysValue) (q : ℚ)
    (hmem : SendKeysValue.float q ∈ values) (text : String) :
    sendKeysLoop text values = none := by
  induction values generalizing text with
  | nil => cases hmem
  | cons v vs ih =>
      unfold sendKeysLoop
      cases hv : v.toText? with
      | none => rfl
      | some t =>
          apply ih
          rcases List.mem_cons.mp hmem with heq | hm
          · rw [← heq] at hv
            simp [SendKeysValue.toText?] at hv
          · exact hm

/-- C4 (amended): with a page open, a proxied `send_keys` on arguments
that are all strings or ints normalizes each value (ints stringified) and
concatenates in order into one text, records the SendKeys event with that
text and the computed location before the real send-keys executes, and
invokes the real send-keys with the original argument list unchanged; in
particular the arguments "a", 3, "b" normalize to the text "a3b". A
non-string numeric value that is not an `int` (a float) is instead
rejected by the normalization loop with an AttributeError: the state is
unchanged, no event is recorded, and the real send-keys never runs. -/
theorem send_keys_records_then_sends
    (realSendKeys : List SendKeysValue → World → World)
    (r : Recorder) (w : World) (values : List SendKeysValue)
    (url : String) (evs : List Event) (h : r.current_page = .page url evs) :
    (∀ texts : List String, toTexts? values = some texts →
      sendKeysText values = some (concatTexts texts) ∧
      RecordingWebElement.send_keys realSendKeys r w values =
        (({ r with current_page := .page url (evs ++
              [Event.send_keys (concatTexts texts) (Recorder._get_event_location w.element)]) },
          realSendKeys values w), none)) ∧
    (∀ q : ℚ, SendKeysValue.float q ∈ values →
      RecordingWebElement.send_keys realSendKeys r w values =
        ((r, w), some "AttributeError: float object has no attribute encode")) ∧
    sendKeysText [SendKeysValue.str "a", SendKeysValue.int 3, SendKeysValue.str "b"] =
      some "a3b" := by
  refine ⟨?_, ?_, rfl⟩
  · intro texts htexts
    have htext : sendKeysText values = some (concatTexts texts) := by
      unfold sendKeysText
      rw [sendKeysLoop_toTexts values texts htexts ""]
      rw [String.empty_append]
    refine ⟨htext, ?_⟩
    unfold RecordingWebElement.send_keys
    rw [htext]
    simp [Recorder.on_send_keys, Recorder._add_event, h, EventTag.withLocation]
  · intro q hq
    unfold RecordingWebElement.send_keys sendKeysText
    rw [sendKeysLoop_float values q hq ""]

/-- C4 witness at a concrete state and the "a", 3, "b" argument list. -/
theorem send_keys_records_then_sends_witness :
    sendKeysText [SendKeysValue.str "a", SendKeysValue.int 3, SendKeysValue.str "b"] =
      some (concatTexts ["a", "3", "b"]) ∧
    RecordingWebElement.send_keys (fun _ w => w)
        (Recorder.start.on_navigate_to_url "u1")
        ⟨⟨⟨10, 20⟩, ⟨100, 40⟩⟩, "u1"⟩
        [SendKeysValue.str "a", SendKeysValue.int 3, SendKeysValue.str "b"] =
      (({ Recorder.start.on_navigate_to_url "u1" with
          current_page := .page "u1" ([] ++
            [Event.send_keys (concatTexts ["a", "3", "b"])
              (Recorder._get_event_location ⟨⟨10, 20⟩, ⟨100, 40⟩⟩)]) },
        (⟨⟨⟨10, 20⟩, ⟨100, 40⟩⟩, "u1"⟩ : World)), none) :=
  (send_keys_records_then_sends (fun _ w => w)
    (Recorder.start.on_navigate_to_url "u1")
    ⟨⟨⟨10, 20⟩, ⟨100, 40⟩⟩, "u1"⟩
    [SendKeysValue.str "a", SendKeysValue.int 3, SendKeysValue.str "b"]
    "u1" [] rfl).1 ["a", "3", "b"] rfl

/-- C4 counterexample to the original claim: a float argument (here 1.5,
after the string "a") is not stringified — the normalization loop raises
AttributeError, so no SendKeys event is recorded, the recorder and world
are unchanged, and the real send-keys is never invoked. -/
theorem send_keys_float_not_stringified_cex :
    RecordingWebElement.send_keys (fun _ w => w)
        (Recorder.start.on_navigate_to_url "u1")
        ⟨⟨⟨10, 20⟩, ⟨100, 40⟩⟩, "u1"⟩
        [SendKeysValue.str "a", SendKeysValue.float (3 / 2)] =
      ((Recorder.start.on_navigate_to_url "u1", ⟨⟨⟨10, 20⟩, ⟨100, 40⟩⟩, "u1"⟩),
        some "AttributeError: float object has no attribute encode") := rfl

/-- C5: an event notification arriving with no page open (`_current_page`
is the empty dict) raises a KeyError — it is neither retried nor ignored —
and the recorder state at raise time is unchanged: in particular the
finalized trace `_pages` is exactly what it was before the failed call. -/
theorem event_without_open_page_fails (r : Recorder) (e : PyElement) (t : String)
    (h : r.current_page = .empty) :
    r.on_click e = (r, some "KeyError: recorded_events") ∧
    r.on_send_keys e t = (r, some "KeyError: recorded_events") ∧
    (r.on_click e).1.pages = r.pages ∧
    (r.on_send_keys e t).1.pages = r.pages := by
  refine ⟨?_, ?_, ?_, ?_⟩ <;>
    simp [Recorder.on_click, Recorder.on_send_keys, Recorder._add_event, h]

/-- C5 witness: a fresh recorder (no navigation yet) rejects both event
notifications and its trace is unchanged. -/
theorem event_without_open_page_fails_witness :
    Recorder.start.on_click ⟨⟨10, 20⟩, ⟨100, 40⟩⟩ =
        (Recorder.start, some "KeyError: recorded_events") ∧
    Recorder.start.on_send_keys ⟨⟨10, 20⟩, ⟨100, 40⟩⟩ "hi" =
        (Recorder.start, some "KeyError: recorded_events") ∧
    (Recorder.start.on_click ⟨⟨10, 20⟩, ⟨100, 40⟩⟩).1.pages = Recorder.start.pages ∧
    (Recorder.start.on_send_keys ⟨⟨10, 20⟩, ⟨100, 40⟩⟩ "hi").1.pages = Recorder.start.pages :=
  event_without_open_page_fails Recorder.start ⟨⟨10, 20⟩, ⟨100, 40⟩⟩ "hi" rfl

/-- C7: for every lookup on the element proxy and on the driver proxy, with
any strategy and value, the result is the underlying result with every
element wrapped: a non-empty result consists only of wrapped elements (no
raw element escapes), an empty underlying list yields the empty list, and
an underlying no-result (`None`) is returned unchanged by `find_element`. -/
theorem lookup_wrapping_closure {α : Type}
    (elem_find : By → Option String → Option α)
    (elem_finds : By → Option String → List α)
    (drv_find : By → Option String → Option α)
    (drv_finds : By → Option String → List α)
    (by_ : By) (value : Option String) :
    RecordingWebElement.find_element elem_find by_ value =
      (elem_find by_ value).map (fun e => LookupResult.wrapped ⟨e⟩) ∧
    RecordingWebElement.find_elements elem_finds by_ value =
      (elem_finds by_ value).map (fun e => LookupResult.wrapped ⟨e⟩) ∧
    RecordingWebDriver.find_element drv_find by_ value =
      (drv_find by_ value).map (fun e => LookupResult.wrapped ⟨e⟩) ∧
    RecordingWebDriver.find_elements drv_finds by_ value =
      (drv_finds by_ value).map (fun e => LookupResult.wrapped ⟨e⟩) := by
  refine ⟨?_, ?_, ?_, ?_⟩
  · unfold RecordingWebElement.find_element
    cases elem_find by_ value <;> rfl
  · unfold RecordingWebElement.find_elements
    cases elem_finds by_ value <;> rfl
  · unfold RecordingWebDriver.find_element
    cases drv_find by_ value <;> rfl
  · unfold RecordingWebDriver.find_elements
    cases drv_finds by_ value <;> rfl

/-- C8: `export()` is pure — it serializes only the finalized pages
`_pages`, so its output is unchanged by any state of the open, unfinalized
page (calling it twice without recorder mutation trivially yields the same
string, and it returns no modified recorder); after `close()`, and only
then, the formerly open page is part of the serialized trace. -/
theorem export_pure_and_finalized_only (r : Recorder) (c : CurrentPage) :
    Recorder.export' { pages := r.pages, current_page := c } = Recorder.export' r ∧
    Recorder.export' r = json_dumps_pages r.pages ∧
    Recorder.export' r.close = json_dumps_pages (r.pages ++ [r.current_page]) := by
  exact ⟨rfl, rfl, rfl⟩

end WebdriverRecorder

namespace MetaprogUtils

/-- C9: for a target object with distinct attribute names,
`create_proxy_interface` binds onto the source a forwarding method for
every publicly named callable attribute of the target not in the excluded
list; calling that forwarding method invokes the same-named operation on
the target with the given arguments and returns its result. With
`override_existing` false, a name the source already has is left
untouched; with it true, the forwarding method replaces any existing
binding. -/
theorem create_proxy_interface_spec {ρ : Type} (from_ to_ : PyObj ρ)
    (ignore_list : List String) (allow_override : Bool) (name : String)
    (hnd : (to_.map Prod.fst).Nodup) :
    (∀ f : List ρ → ρ, getattr? to_ name = some (.method f) →
      isPublic name = true → ignore_list.contains name = false →
      (allow_override = true ∨ hasattr from_ name = false) →
      getattr? (create_proxy_interface from_ to_ ignore_list allow_override) name =
          some (create_forwarded_method name) ∧
      ∀ args : List ρ,
        invokeAttr to_ (create_forwarded_method name) args = some (f args)) ∧
    (allow_override = false → hasattr from_ name = true →
      getattr? (create_proxy_interface from_ to_ ignore_list allow_override) name =
        getattr? from_ name) := by
  constructor
  · intro f hget hpub hig hov
    have hmem : (name, PyAttr.method f) ∈ to_ := getattr_eq_some_mem to_ name _ hget
    constructor
    · unfold create_proxy_interface
      rw [getattr_foldl_mem to_ ignore_list allow_override to_ from_ name _ hnd hmem]
      have hig' : name ∉ ignore_list := by simpa using hig
      have hcond : (isPublic name && !(ignore_list.contains name) &&
          ((getattr? to_ name).map PyAttr.callable).getD false &&
          (allow_override || !(hasattr from_ name))) = true := by
        rcases hov with h | h <;> simp [hpub, hig', hget, h, PyAttr.callable]
      rw [if_pos hcond]
    · intro args
      simp [invokeAttr, create_forwarded_method, hget]
  · intro hov ha
    unfold create_proxy_interface
    cases hc : getattr? to_ name with
    | some a =>
        have hmem : (name, a) ∈ to_ := getattr_eq_some_mem to_ name a hc
        rw [getattr_foldl_mem to_ ignore_list allow_override to_ from_ name a hnd hmem]
        have hnc : ¬ ((isPublic name && !(ignore_list.contains name) &&
            ((getattr? to_ name).map PyAttr.callable).getD false &&
            (allow_override || !(hasattr from_ name))) = true) := by
          simp [hov, ha]
        rw [if_neg hnc]
    | none =>
        apply getattr_foldl_not_mem
        intro e he h1
        have hfind : to_.find? (fun p => p.1 == name) = none := by
          unfold getattr? at hc
          exact Option.map_eq_none'.mp hc
        have := List.find?_eq_none.mp hfind e he
        simp only [beq_iff_eq] at this
        exact this h1

/-- C9 witness: on the demonstration objects, the public callable "quit"
(not excluded by the list, absent from the source) gets a forwarding
method whose call on concrete arguments returns the target method's
result, while the source's own "get" binding is untouched when overriding
is off. -/
theorem create_proxy_interface_spec_witness :
    getattr? (create_proxy_interface demoSource demoTarget ["excluded"] false) "quit" =
        some (create_forwarded_method "quit") ∧
    invokeAttr demoTarget (create_forwarded_method "quit") [1, 2] = some (demoQuit [1, 2]) ∧
    getattr? (create_proxy_interface demoSource demoTarget ["excluded"] false) "get" =
      getattr? demoSource "get" :=
  ⟨((create_proxy_interface_spec demoSource demoTarget ["excluded"] false "quit"
      (by decide)).1 demoQuit rfl (by decide) (by decide) (Or.inr (by decide))).1,
   ((create_proxy_interface_spec demoSource demoTarget ["excluded"] false "quit"
      (by decide)).1 demoQuit rfl (by decide) (by decide) (Or.inr (by decide))).2 [1, 2],
   (create_proxy_interface_spec demoSource demoTarget ["excluded"] false "get"
      (by decide)).2 rfl (by decide)⟩

end MetaprogUtils
